import Mathlib

/-!
Shallow embedding of the core control-plane components of the `tobogganing`
repository (SASE manager service), together with proofs that settle the
frozen claims about its specification.

Each definition is translated from the Python source under `src/manager/`;
the file and line references are given in the doc comments.  Machine-level
conventions used throughout:

* Python `datetime` values are Unix seconds (`Int`).
* Redis is used with `decode_responses=True`, so every value read back from
  Redis is a string; Python truthiness of a string is non-emptiness.
* Key TTLs (`EXPIRE`/`SETEX`) are modelled only where a claim depends on
  them (the client-registry key/value store); the token-metadata TTL is not
  modelled because every token claim is evaluated strictly inside the token
  lifetime.
-/

namespace Tobogganing

/-! ### Python-style primitives -/

/-- Truthiness of a Python string: every non-empty string is truthy. -/
def pyTruthy (s : String) : Bool := s ≠ ""

/-- Truthiness of an optional string: `None` and the empty string are falsy. -/
def optTruthy : Option String → Bool
  | none => false
  | some s => s ≠ ""

/-- Python dict assignment on an association list: replace the value of an
existing key in place, otherwise append a new binding at the end (Python
dicts preserve insertion order). -/
def dictSet {α : Type} : List (String × α) → String → α → List (String × α)
  | [], k, v => [(k, v)]
  | (k', v') :: rest, k, v =>
    if k' = k then (k, v) :: rest else (k', v') :: dictSet rest k v

theorem dictSet_lookup_self {α : Type} (l : List (String × α)) (k : String) (v : α) :
    (dictSet l k v).lookup k = some v := by
  induction l with
  | nil => simp [dictSet, List.lookup]
  | cons hd tl ih =>
    obtain ⟨k', v'⟩ := hd
    by_cases h : k' = k
    · subst h
      simp [dictSet, List.lookup]
    · have hbeq : (k == k') = false := beq_eq_false_iff_ne.mpr (Ne.symm h)
      simp only [dictSet, if_neg h, List.lookup, hbeq]
      exact ih

theorem dictSet_lookup_other {α : Type} (l : List (String × α)) (k k' : String) (v : α)
    (h : k' ≠ k) : (dictSet l k v).lookup k' = l.lookup k' := by
  have hbeq : (k' == k) = false := beq_eq_false_iff_ne.mpr h
  induction l with
  | nil => simp [dictSet, List.lookup, hbeq]
  | cons hd tl ih =>
    obtain ⟨k₀, v₀⟩ := hd
    by_cases hh : k₀ = k
    · subst hh
      simp [dictSet, List.lookup, hbeq]
    · simp only [dictSet, if_neg hh, List.lookup]
      by_cases he : k' = k₀
      · simp [he]
      · have hbeq₂ : (k' == k₀) = false := beq_eq_false_iff_ne.mpr he
        simp only [hbeq₂]
        exact ih

/-- Auxiliary for `pyStartsWith`: the first list is a leading segment of the
second. -/
def charsStartWith : List Char → List Char → Bool
  | [], _ => true
  | _ :: _, [] => false
  | p :: ps, c :: cs => p == c && charsStartWith ps cs

/-- Python `s.startswith(pre)`, computed structurally on the character lists
so that it evaluates inside the kernel. -/
def pyStartsWith (s pre : String) : Bool := charsStartWith pre.data s.data

/-- Python `s.endswith(suf)`. -/
def pyEndsWith (s suf : String) : Bool := charsStartWith suf.data.reverse s.data.reverse

/-! ### Token service (`src/manager/auth/jwt_manager.py`) -/

/-- A Redis hash value: association list from field to value.  With
`decode_responses=True` every stored value is a string. -/
abbrev RedisHash := List (String × String)

/-- The Redis keyspace used by `JWTManager`: key to hash. -/
abbrev RedisStore := List (String × RedisHash)

/-- Redis HSET of a single field.  Returns the number of newly created fields
(`0` when the field already existed), as redis-py does. -/
def storeHset : RedisStore → String → String → String → Nat × RedisStore
  | [], key, f, v => (1, [(key, [(f, v)])])
  | (k, h) :: rest, key, f, v =>
    if k = key then
      ((if (h.lookup f).isSome then 0 else 1), (k, dictSet h f v) :: rest)
    else
      let (n, rest') := storeHset rest key f v
      (n, (k, h) :: rest')

/-- Redis HGETALL: a missing key yields the empty hash, as redis-py does. -/
def storeHgetall (st : RedisStore) (key : String) : RedisHash :=
  (st.lookup key).getD []

/-- Redis HSET with a field mapping: each field is set in turn. -/
def storeHsetMapping (st : RedisStore) (key : String) : List (String × String) → RedisStore
  | [] => st
  | (f, v) :: rest => storeHsetMapping (storeHset st key f v).2 key rest

/-- A JWT as far as `JWTManager.validate_token` inspects it.  `jti` is the
claim extracted by the unverified decode (absent when the token carries no
`jti`); `sigValid` models whether RS256 verification against the manager
public key succeeds; `exp` is Unix seconds. -/
structure Token where
  jti : Option String
  sub : String
  nodeType : String
  permissions : List String
  iat : Int
  exp : Int
  typ : String
  sigValid : Bool
  deriving Repr, DecidableEq

/-- JWTManager._invalidate_token (jwt_manager.py lines 260-264): HSET the
string "false" into the `active` field of `token_metadata:{jti}` and return
`bool(result)`, where `result` counts newly created fields. -/
def invalidateToken (st : RedisStore) (jti : String) : Bool × RedisStore :=
  let r := storeHset st ("token_metadata:" ++ jti) "active" "false"
  (r.1 != 0, r.2)

/-- JWTManager.revoke_token (lines 219-221). -/
def revokeToken (st : RedisStore) (jti : String) : Bool × RedisStore :=
  invalidateToken st jti

/-- JWTManager.revoke_all_tokens (lines 223-236): KEYS "token:{node_id}:*",
HSET `active` "false" on every match, return the number of matched keys. -/
def revokeAllTokens (st : RedisStore) (nodeId : String) : Nat × RedisStore :=
  let keys := (st.map Prod.fst).filter (fun k => pyStartsWith k ("token:" ++ nodeId ++ ":"))
  (keys.length, keys.foldl (fun s k => (storeHset s k "active" "false").2) st)

/-- JWTManager._cache_token_metadata (lines 242-253), for one token.  Values
reach Redis only as strings: the boolean `True` is modelled as the string
"True" (any non-empty encoding behaves identically under Python truthiness)
and a permission list as a comma-joined string.  The EXPIRE call is not
modelled (claims are evaluated inside the TTL). -/
def cacheTokenMetadata (st : RedisStore) (jti : String) (metadata : List (String × String)) :
    RedisStore :=
  storeHsetMapping st ("token_metadata:" ++ jti) metadata

/-- Cache effect of JWTManager.generate_token (lines 141-155): metadata for
the access token and for the refresh token, both with `active = True`. -/
def generateTokenCache (st : RedisStore) (nodeId nodeType : String) (permissions : List String)
    (accessJti refreshJti : String) (accessExpiresAt refreshExpiresAt : String) : RedisStore :=
  let st₁ := cacheTokenMetadata st accessJti
    [("node_id", nodeId), ("node_type", nodeType),
     ("permissions", String.intercalate "," permissions),
     ("expires_at", accessExpiresAt), ("active", "True")]
  cacheTokenMetadata st₁ refreshJti
    [("node_id", nodeId), ("type", "refresh"),
     ("expires_at", refreshExpiresAt), ("active", "True")]

/-- JWTManager.validate_token (lines 166-199): extract `jti` unverified; look
up the cached metadata and reject when the hash is empty or the `active`
field is falsy; then verify the signature (InvalidTokenError yields None) and
the expiry (ExpiredSignatureError marks the cache inactive and yields None);
otherwise return the payload. -/
def validateToken (st : RedisStore) (tok : Token) (now : Int) : Option Token × RedisStore :=
  match tok.jti with
  | none => (none, st)
  | some jti =>
    let cachedMetadata := storeHgetall st ("token_metadata:" ++ jti)
    if cachedMetadata.isEmpty || !optTruthy (cachedMetadata.lookup "active") then
      (none, st)
    else if !tok.sigValid then
      (none, st)
    else if tok.exp ≤ now then
      (none, (invalidateToken st jti).2)
    else
      (some tok, st)

/-! ### C1, C2, C4 -/

/-- Concrete access token for the C1 scenario: signature-valid, unexpired,
with its metadata cached. -/
def c1Token : Token :=
  { jti := some "jti-a", sub := "node-1", nodeType := "client_docker",
    permissions := ["connect"], iat := 0, exp := 86400, typ := "access", sigValid := true }

/-- Cache state right after issuing the C1 token (access jti "jti-a"). -/
def c1Store : RedisStore :=
  generateTokenCache [] "node-1" "client_docker" ["connect"] "jti-a" "jti-r"
    "1970-01-02T00:00:00+00:00" "1970-01-08T00:00:00+00:00"

/-- C1.  The claim says that after `revoke_token(T.jti)` completes,
`validate_token(T)` returns nil.  The code violates this: `_invalidate_token`
stores the string "false", and `validate_token` tests the field with Python
truthiness, under which the non-empty string "false" is truthy — so a
revoked, signature-valid, unexpired token still validates and returns its
payload.  This theorem evaluates the code at the failing input. -/
theorem C1_revoked_token_still_validates :
    (storeHgetall (revokeToken c1Store "jti-a").2 "token_metadata:jti-a").lookup "active"
        = some "false" ∧
    (validateToken (revokeToken c1Store "jti-a").2 c1Token 100).1 = some c1Token := by
  constructor
  · rfl
  · rfl

/-- Concrete access tokens for the C2 scenario: three access tokens issued
for node "node-N". -/
def c2Token (j : String) : Token :=
  { jti := some j, sub := "node-N", nodeType := "client_docker",
    permissions := ["connect"], iat := 0, exp := 86400, typ := "access", sigValid := true }

/-- Cache state after issuing three access tokens for "node-N". -/
def c2Store : RedisStore :=
  let st₁ := generateTokenCache [] "node-N" "client_docker" ["connect"] "jti-1" "jti-1r"
    "1970-01-02T00:00:00+00:00" "1970-01-08T00:00:00+00:00"
  let st₂ := generateTokenCache st₁ "node-N" "client_docker" ["connect"] "jti-2" "jti-2r"
    "1970-01-02T00:00:00+00:00" "1970-01-08T00:00:00+00:00"
  generateTokenCache st₂ "node-N" "client_docker" ["connect"] "jti-3" "jti-3r"
    "1970-01-02T00:00:00+00:00" "1970-01-08T00:00:00+00:00"

/-- C2.  The claim says `revoke_all_tokens(N)` marks the node's cached token
metadata inactive and returns the count (3 after issuing 3 access tokens).
The code violates this: `generate_token` caches metadata under keys
"token_metadata:{jti}", while `revoke_all_tokens` scans the pattern
"token:{node_id}:*", which matches none of them — it returns 0, writes
nothing, and all three tokens still validate.  This theorem evaluates the
code at the failing input. -/
theorem C2_revoke_all_revokes_nothing :
    (revokeAllTokens c2Store "node-N").1 = 0 ∧
    (revokeAllTokens c2Store "node-N").2 = c2Store ∧
    (validateToken (revokeAllTokens c2Store "node-N").2 (c2Token "jti-1") 100).1
        = some (c2Token "jti-1") ∧
    (validateToken (revokeAllTokens c2Store "node-N").2 (c2Token "jti-2") 100).1
        = some (c2Token "jti-2") ∧
    (validateToken (revokeAllTokens c2Store "node-N").2 (c2Token "jti-3") 100).1
        = some (c2Token "jti-3") := by
  refine ⟨by decide, by decide, by decide, by decide, by decide⟩

/-- C4.  A token whose `jti` has no entry in the cache is rejected by
`validate_token`, even when its RS256 signature is valid and it is
unexpired: the cache lookup happens before signature verification and an
empty hash (the HGETALL result for a missing key) is falsy. -/
theorem C4_cache_miss_rejected (st : RedisStore) (tok : Token) (now : Int) (j : String)
    (hjti : tok.jti = some j)
    (hmiss : storeHgetall st ("token_metadata:" ++ j) = [])
    (hsig : tok.sigValid = true)
    (hexp : now < tok.exp) :
    (validateToken st tok now).1 = none := by
  unfold validateToken
  rw [hjti]
  simp [hmiss]

/-- Concrete token for the C4 witness. -/
def c4Token : Token :=
  { jti := some "jti-x", sub := "node-9", nodeType := "client_native",
    permissions := ["connect"], iat := 0, exp := 86400, typ := "access", sigValid := true }

/-- Witness for C4: an empty cache misses every jti, and the signature-valid,
unexpired token is rejected. -/
theorem C4_cache_miss_rejected_witness :
    (validateToken [] c4Token 100).1 = none :=
  C4_cache_miss_rejected [] c4Token 100 "jti-x" rfl rfl rfl (by decide)

/-! ### Kernel-computable re-implementations of Python string primitives

The stock `String` functions (`splitOn`, `toLower`, `toNat?`, ...) are
compiled by well-founded recursion and do not reduce inside the kernel, so
the embedding re-implements the Python primitives structurally on character
lists.  Unicode-specific behaviour is restricted to ASCII, which covers
every input class the claims quantify over (domains, IPs, URLs, ports). -/

/-- ASCII lowering of one character (model of `str.lower`). -/
def pyCharLower (c : Char) : Char :=
  if c.isUpper then Char.ofNat (c.toNat + 32) else c

/-- ASCII raising of one character (used for case-insensitive classes). -/
def pyCharUpper (c : Char) : Char :=
  if c.isLower then Char.ofNat (c.toNat - 32) else c

/-- Python `s.lower()` on ASCII. -/
def pyLower (s : String) : String := ⟨s.data.map pyCharLower⟩

/-- Fuel-driven worker for `pySplit`.  The separator is non-empty, so every
step consumes at least one character and fuel `length + 1` is exact. -/
def splitOnAux (sep : List Char) : Nat → List Char → List Char → List (List Char)
  | 0, cs, acc => [acc.reverse ++ cs]
  | _ + 1, [], acc => [acc.reverse]
  | fuel + 1, c :: cs, acc =>
    if charsStartWith sep (c :: cs) then
      acc.reverse :: splitOnAux sep fuel (cs.drop (sep.length - 1)) []
    else
      splitOnAux sep fuel cs (c :: acc)

/-- Python `s.split(sep)` for a non-empty separator. -/
def pySplit (s sep : String) : List String :=
  (splitOnAux sep.data (s.data.length + 1) s.data []).map (fun l => ⟨l⟩)

/-- Python `c in s` for a single character. -/
def pyContains (s : String) (c : Char) : Bool := s.data.contains c

/-- Decimal digits to a number; `none` on a non-digit. -/
def digitsToNat (acc : Nat) : List Char → Option Nat
  | [] => some acc
  | c :: cs => if c.isDigit then digitsToNat (acc * 10 + (c.toNat - 48)) cs else none

/-- Python `int(s)` restricted to non-empty decimal digit strings (the forms
the embedded call sites feed it). -/
def pyToNat? (s : String) : Option Nat :=
  match s.data with
  | [] => none
  | cs => digitsToNat 0 cs

/-- Whitespace stripped from both ends (Python `s.strip()`). -/
def pyTrim (s : String) : String :=
  let ws := fun (c : Char) => c = ' ' || c = '\t' || c = '\n' || c = '\r'
  ⟨((s.data.dropWhile ws).reverse.dropWhile ws).reverse⟩

/-! ### IPv4 addresses and networks (model of the `ipaddress` module)

IPv6 is not modelled; every address the claims quantify over is IPv4. -/

/-- One dotted-quad octet: decimal, in range, no leading zeros (as modern
`ipaddress.ip_address` requires). -/
def parseOctet (s : String) : Option Nat :=
  match pyToNat? s with
  | none => none
  | some n =>
    if n > 255 then none
    else if s.data.length > 1 && s.data.headD '0' = '0' then none
    else some n

/-- Model of `ipaddress.ip_address` for IPv4: the address as a 32-bit number. -/
def parseIPv4 (s : String) : Option Nat :=
  match pySplit s "." with
  | [a, b, c, d] =>
    match parseOctet a, parseOctet b, parseOctet c, parseOctet d with
    | some a, some b, some c, some d => some (((a * 256 + b) * 256 + c) * 256 + d)
    | _, _, _, _ => none
  | _ => none

/-- Address with the host bits below `plen` cleared. -/
def maskIPv4 (a plen : Nat) : Nat := (a / 2 ^ (32 - plen)) * 2 ^ (32 - plen)

/-- Model of `ipaddress.ip_network` for IPv4 with a decimal prefix length: a
plain address is a /32; with `strict` set, host bits must be zero, otherwise
they are masked away.  Returns the network base and the prefix length. -/
def parseIPv4Network (s : String) (strict : Bool) : Option (Nat × Nat) :=
  match pySplit s "/" with
  | [addr] => (parseIPv4 addr).map (fun a => (a, 32))
  | [addr, plen] =>
    match parseIPv4 addr, pyToNat? plen with
    | some a, some n =>
      if n ≤ 32 then
        if strict && maskIPv4 a n ≠ a then none else some (maskIPv4 a n, n)
      else none
    | _, _ => none
  | _ => none

/-- Membership of an address in a parsed network. -/
def ipInNetwork (ip : Nat) (net : Nat × Nat) : Bool := maskIPv4 ip net.2 = net.1

/-! ### Miniature regular-expression engine (model of `re`)

The model covers the subset of Python regular expressions built from
literal characters, `.`, character classes (optionally negated, with
ranges), and the postfix quantifiers `* + ?`; constructs outside the subset
compile to an error and are not quantified over by any claim.  The genuine
`re.error` cases inside the subset — a quantifier with nothing to repeat
and an unterminated character class — are modelled exactly.  Matching is
`re.match` with `re.IGNORECASE`: anchored at the start, free at the end,
case-folded through ASCII. -/

/-- An atom of the regular-expression subset. -/
inductive RegexAtom
  | anyChar
  | lit (c : Char)
  | cls (negated : Bool) (ranges : List (Char × Char))
  deriving Repr, DecidableEq

/-- An atom with its quantifier. -/
inductive RegexPiece
  | once (a : RegexAtom)
  | star (a : RegexAtom)
  | plus (a : RegexAtom)
  | opt (a : RegexAtom)
  deriving Repr, DecidableEq

/-- Compilation failures (`re.error`). -/
inductive RegexError
  | nothingToRepeat
  | unterminatedClass
  | badCharRange
  | unsupportedSyntax
  deriving Repr, DecidableEq

/-- Body of a character class after the optional `^`. -/
def parseClassAux (negated : Bool) :
    List Char → List (Char × Char) → Except RegexError (RegexAtom × List Char)
  | [], _ => .error .unterminatedClass
  | ']' :: rest, acc => .ok (.cls negated acc.reverse, rest)
  | a :: '-' :: b :: rest, acc =>
    if b = ']' then .ok (.cls negated (('-', '-') :: (a, a) :: acc).reverse, rest)
    else if a ≤ b then parseClassAux negated rest ((a, b) :: acc)
    else .error .badCharRange
  | a :: rest, acc => parseClassAux negated rest ((a, a) :: acc)

/-- A character class right after its opening bracket. -/
def parseClass : List Char → Except RegexError (RegexAtom × List Char)
  | '^' :: rest => parseClassAux true rest []
  | rest => parseClassAux false rest []

/-- Fuel-driven compiler; each step consumes at least one character, so fuel
`length + 1` is exact and the fuel-exhausted branch is unreachable. -/
def regexCompileAux : Nat → List Char → List RegexPiece → Except RegexError (List RegexPiece)
  | 0, _, acc => .ok acc.reverse
  | _ + 1, [], acc => .ok acc.reverse
  | fuel + 1, c :: rest, acc =>
    if c = '*' || c = '+' || c = '?' then
      match acc with
      | .once a :: acc' =>
        let p := if c = '*' then RegexPiece.star a
                 else if c = '+' then RegexPiece.plus a else RegexPiece.opt a
        regexCompileAux fuel rest (p :: acc')
      | _ => .error .nothingToRepeat
    else if c = '.' then regexCompileAux fuel rest (.once .anyChar :: acc)
    else if c = '[' then
      match parseClass rest with
      | .error e => .error e
      | .ok (atom, rest') => regexCompileAux fuel rest' (.once atom :: acc)
    else if c = '(' || c = ')' || c = '|' || c = '^' || c = '$' || c = '{' || c = '}' || c = '\\' then
      .error .unsupportedSyntax
    else regexCompileAux fuel rest (.once (.lit c) :: acc)

/-- Model of `re.compile(pattern, re.IGNORECASE)`. -/
def regexCompile (s : String) : Except RegexError (List RegexPiece) :=
  regexCompileAux (s.data.length + 1) s.data []

/-- Case-insensitive atom match. -/
def atomMatches : RegexAtom → Char → Bool
  | .anyChar, _ => true
  | .lit p, c => pyCharLower p == pyCharLower c
  | .cls neg ranges, c =>
    let inR := fun (x : Char) => ranges.any (fun r => r.1 ≤ x && x ≤ r.2)
    let hit := inR c || inR (pyCharLower c) || inR (pyCharUpper c)
    if neg then !hit else hit

/-- Fuel-driven backtracking matcher; the recursion depth is bounded by the
lexicographic measure on (input length, piece count), so the supplied fuel
is always sufficient.  Succeeds when all pieces are consumed (a prefix
match, as `re.match`). -/
def regexMatchAux : Nat → List RegexPiece → List Char → Bool
  | 0, _, _ => false
  | _ + 1, [], _ => true
  | fuel + 1, .once a :: ps, cs =>
    match cs with
    | [] => false
    | c :: cs' => atomMatches a c && regexMatchAux fuel ps cs'
  | fuel + 1, .opt a :: ps, cs =>
    regexMatchAux fuel ps cs ||
      (match cs with
       | c :: cs' => atomMatches a c && regexMatchAux fuel ps cs'
       | [] => false)
  | fuel + 1, .star a :: ps, cs =>
    regexMatchAux fuel ps cs ||
      (match cs with
       | c :: cs' => atomMatches a c && regexMatchAux fuel (RegexPiece.star a :: ps) cs'
       | [] => false)
  | fuel + 1, .plus a :: ps, cs =>
    match cs with
    | c :: cs' => atomMatches a c && regexMatchAux fuel (RegexPiece.star a :: ps) cs'
    | [] => false

/-- Model of `bool(re.match(r, target, re.IGNORECASE))`. -/
def regexMatch (r : List RegexPiece) (cs : List Char) : Bool :=
  regexMatchAux ((cs.length + 1) * (r.length + 1) + 1) r cs

/-! ### Access control (`src/manager/firewall/access_control.py`) -/

/-- AccessType (access_control.py lines 19-21). -/
inductive AccessType
  | allow
  | deny
  deriving Repr, DecidableEq

/-- RuleType (lines 23-28). -/
inductive RuleType
  | domain
  | ip
  | ipRange
  | urlPattern
  | protocolRule
  deriving Repr, DecidableEq

/-- AccessRule (lines 30-49); timestamps and description are irrelevant to
matching and omitted. -/
structure AccessRule where
  id : String
  userId : String
  ruleType : RuleType
  accessType : AccessType
  pattern : String
  priority : Int := 100
  isActive : Bool := true
  srcIp : Option String := none
  dstIp : Option String := none
  protocol : Option String := none
  srcPort : Option String := none
  dstPort : Option String := none
  direction : Option String := none
  deriving Repr, DecidableEq

/-- Whether the target is an http(s) URL (`target.startswith(('http://', 'https://'))`). -/
def isHttpUrl (target : String) : Bool :=
  pyStartsWith target "http://" || pyStartsWith target "https://"

/-- Model of `urlparse(target).netloc` for http(s) URLs: the part after the
scheme up to the first of `/`, `?`, `#`. -/
def urlNetloc (target : String) : String :=
  let rest := if pyStartsWith target "http://" then target.drop 7
    else if pyStartsWith target "https://" then target.drop 8
    else target
  ⟨rest.data.takeWhile (fun c => c ≠ '/' && c ≠ '?' && c ≠ '#')⟩

/-- AccessControlManager._match_domain (lines 239-260). -/
def matchDomain (pat target : String) : Bool :=
  let targetDomain := if isHttpUrl target then pyLower (urlNetloc target) else pyLower target
  let pattern := pyLower pat
  if pattern = targetDomain then true
  else if pyStartsWith pattern "*." then
    let baseDomain := pattern.drop 2
    targetDomain = baseDomain || pyEndsWith targetDomain ("." ++ baseDomain)
  else false

/-- Host part of a target: the netloc for URLs, otherwise the raw target,
with any `:port` suffix removed (`.split(':')[0]`). -/
def targetIpOf (target : String) : String :=
  let base := if isHttpUrl target then urlNetloc target else target
  (pySplit base ":").headD base

/-- AccessControlManager._match_ip (lines 262-278); ValueError yields False. -/
def matchIp (pat target : String) : Bool :=
  match parseIPv4 (targetIpOf target), parseIPv4 pat with
  | some t, some p => t = p
  | _, _ => false

/-- AccessControlManager._match_ip_range (lines 280-296); ValueError yields
False. -/
def matchIpRange (pat target : String) : Bool :=
  match parseIPv4 (targetIpOf target), parseIPv4Network pat false with
  | some t, some net => ipInNetwork t net
  | _, _ => false

/-- AccessControlManager._match_url_pattern (lines 298-304): a `re.error`
from an invalid pattern is caught and yields False. -/
def matchUrlPattern (pat target : String) : Bool :=
  match regexCompile pat with
  | .error _ => false
  | .ok r => regexMatch r target.data

/-- Parsed connection descriptor (`_parse_connection_target`, lines 348-395). -/
structure ConnInfo where
  protocol : String
  srcIp : String
  srcPort : String
  dstIp : String
  dstPort : String
  direction : String
  deriving Repr, DecidableEq

/-- AccessControlManager._parse_connection_target: splits
`proto:src_ip:src_port->dst_ip:dst_port[:direction]`; a malformed target
(no `->`, or a source part without `:`) yields None. -/
def parseConnectionTarget (target : String) : Option ConnInfo :=
  match pySplit target "->" with
  | src :: dst :: _ =>
    let srcComps := pySplit src ":"
    if srcComps.length ≥ 2 then
      let dstComps := pySplit dst ":"
      some { protocol := srcComps.headD "",
             srcIp := (srcComps.drop 1).headD "*",
             srcPort := (srcComps.drop 2).headD "*",
             dstIp := dstComps.headD "*",
             dstPort := (dstComps.drop 1).headD "*",
             direction := (dstComps.drop 2).headD "outbound" }
    else none
  | _ => none

/-- AccessControlManager._match_ip_or_range (lines 397-412). -/
def matchIpOrRange (ruleIp targetIp : String) : Bool :=
  if ruleIp = "*" || targetIp = "*" then true
  else if pyContains ruleIp '/' then
    match parseIPv4Network ruleIp false, parseIPv4 targetIp with
    | some net, some ip => ipInNetwork ip net
    | _, _ => false
  else
    match parseIPv4 ruleIp, parseIPv4 targetIp with
    | some a, some b => a = b
    | _, _ => false

/-- AccessControlManager._match_port (lines 414-434): single port, range
`a-b` (split at the first dash), list `a,b,c`, or `*`; any int() failure
yields False. -/
def matchPort (rulePort targetPort : String) : Bool :=
  if rulePort = "*" || targetPort = "*" then true
  else
    match pyToNat? targetPort with
    | none => false
    | some t =>
      if pyContains rulePort '-' then
        match pySplit rulePort "-" with
        | s :: rest =>
          match pyToNat? s, pyToNat? (String.intercalate "-" rest) with
          | some a, some b => a ≤ t && t ≤ b
          | _, _ => false
        | [] => false
      else if pyContains rulePort ',' then
        let parts := (pySplit rulePort ",").map pyTrim
        if parts.all (fun p => (pyToNat? p).isSome) then
          parts.any (fun p => pyToNat? p == some t)
        else false
      else
        match pyToNat? rulePort with
        | some p => p = t
        | none => false

/-- AccessControlManager._match_protocol_rule (lines 306-346): each field of
the rule that is truthy must match the parsed connection; a direction other
than "both" must equal the parsed direction; any failure yields False. -/
def matchProtocolRule (rule : AccessRule) (target : String) : Bool :=
  match parseConnectionTarget target with
  | none => false
  | some ci =>
    if optTruthy rule.protocol && pyLower (rule.protocol.getD "") ≠ pyLower ci.protocol then false
    else if optTruthy rule.srcIp && !matchIpOrRange (rule.srcIp.getD "") ci.srcIp then false
    else if optTruthy rule.dstIp && !matchIpOrRange (rule.dstIp.getD "") ci.dstIp then false
    else if optTruthy rule.srcPort && !matchPort (rule.srcPort.getD "") ci.srcPort then false
    else if optTruthy rule.dstPort && !matchPort (rule.dstPort.getD "") ci.dstPort then false
    else if optTruthy rule.direction && rule.direction.getD "" ≠ "both" &&
        rule.direction.getD "" ≠ ci.direction then false
    else true

/-- AccessControlManager._rule_matches (lines 221-237): dispatch on the rule
type; every matcher catches its own exceptions, so the result is total and
an erroring matcher yields False. -/
def ruleMatches (rule : AccessRule) (target : String) : Bool :=
  match rule.ruleType with
  | .domain => matchDomain rule.pattern target
  | .ip => matchIp rule.pattern target
  | .ipRange => matchIpRange rule.pattern target
  | .urlPattern => matchUrlPattern rule.pattern target
  | .protocolRule => matchProtocolRule rule target

/-- The user's active rules, in database order (the WHERE clause of
`get_user_rules`, lines 156-163). -/
def activeUserRules (db : List AccessRule) (userId : String) : List AccessRule :=
  db.filter (fun r => r.userId = userId && r.isActive)

/-- AccessControlManager.get_user_rules (lines 150-194): the user's active
rules ordered by ascending priority (`ORDER BY priority ASC`; SQL leaves
the tie order unspecified, the model fixes the stable realization). -/
def getUserRules (db : List AccessRule) (userId : String) : List AccessRule :=
  List.insertionSort (fun a b => a.priority ≤ b.priority) (activeUserRules db userId)

/-- The evaluation order of `check_access`
(`sorted(rules, key=lambda r: r.priority)`, line 214). -/
def evalOrder (db : List AccessRule) (userId : String) : List AccessRule :=
  List.insertionSort (fun a b => a.priority ≤ b.priority) (getUserRules db userId)

/-- The early-return loop of `check_access`: the first rule that matches. -/
def firstMatchingRule : List AccessRule → String → Option AccessRule
  | [], _ => none
  | r :: rs, target => if ruleMatches r target then some r else firstMatchingRule rs target

/-- AccessControlManager.check_access (lines 196-219): no rules means allow;
otherwise the first matching rule in priority order decides, and no match
means deny. -/
def checkAccess (db : List AccessRule) (userId target : String) : Bool :=
  if (getUserRules db userId).isEmpty then true
  else
    match firstMatchingRule (evalOrder db userId) target with
    | some rule => rule.accessType == AccessType.allow
    | none => false

instance : IsTotal AccessRule (fun a b => a.priority ≤ b.priority) :=
  ⟨fun a b => le_total a.priority b.priority⟩

instance : IsTrans AccessRule (fun a b => a.priority ≤ b.priority) :=
  ⟨fun _ _ _ h₁ h₂ => le_trans h₁ h₂⟩

theorem firstMatchingRule_eq_none (l : List AccessRule) (target : String)
    (h : ∀ r ∈ l, ruleMatches r target = false) :
    firstMatchingRule l target = none := by
  induction l with
  | nil => rfl
  | cons hd tl ih =>
    simp only [firstMatchingRule, h hd (by simp)]
    simp only [Bool.false_eq_true, if_false]
    exact ih (fun r hr => h r (by simp [hr]))

theorem firstMatchingRule_append (l₁ : List AccessRule) (r : AccessRule)
    (l₂ : List AccessRule) (target : String)
    (hr : ruleMatches r target = true)
    (h₁ : ∀ r' ∈ l₁, ruleMatches r' target = false) :
    firstMatchingRule (l₁ ++ r :: l₂) target = some r := by
  induction l₁ with
  | nil => simp [firstMatchingRule, hr]
  | cons hd tl ih =>
    simp only [List.cons_append, firstMatchingRule, h₁ hd (by simp)]
    simp only [Bool.false_eq_true, if_false]
    exact ih (fun r' hr' => h₁ r' (by simp [hr']))

theorem firstMatchingRule_drop_nonmatch (l₁ : List AccessRule) (r : AccessRule)
    (l₂ : List AccessRule) (target : String)
    (hr : ruleMatches r target = false) :
    firstMatchingRule (l₁ ++ r :: l₂) target = firstMatchingRule (l₁ ++ l₂) target := by
  induction l₁ with
  | nil => simp [firstMatchingRule, hr]
  | cons hd tl ih =>
    simp only [List.cons_append, firstMatchingRule]
    by_cases hm : ruleMatches hd target = true
    · simp [hm]
    · simp only [Bool.not_eq_true] at hm
      simp [hm, ih]

theorem evalOrder_perm (db : List AccessRule) (userId : String) :
    (evalOrder db userId).Perm (activeUserRules db userId) := by
  exact (List.perm_insertionSort _ _).trans (List.perm_insertionSort _ _)

theorem evalOrder_sorted (db : List AccessRule) (userId : String) :
    (evalOrder db userId).Pairwise (fun a b => a.priority ≤ b.priority) := by
  exact List.sorted_insertionSort _ _

/-- C3.  check_access semantics: a user with no active rules is allowed; with
at least one active rule the rules are evaluated in ascending-priority order
(the evaluation order is a priority-sorted permutation of the active rules),
the first matching rule decides — its priority is minimal among all matching
active rules — and when no rule matches the result is deny. -/
theorem C3_check_access_semantics (db : List AccessRule) (userId target : String) :
    (getUserRules db userId = [] → checkAccess db userId target = true) ∧
    ((evalOrder db userId).Pairwise (fun a b => a.priority ≤ b.priority) ∧
      (evalOrder db userId).Perm (activeUserRules db userId)) ∧
    (getUserRules db userId ≠ [] →
      (∀ r ∈ activeUserRules db userId, ruleMatches r target = false) →
      checkAccess db userId target = false) ∧
    (∀ l₁ r l₂, evalOrder db userId = l₁ ++ r :: l₂ →
      ruleMatches r target = true →
      (∀ r' ∈ l₁, ruleMatches r' target = false) →
      checkAccess db userId target = (r.accessType == AccessType.allow) ∧
      (∀ r' ∈ activeUserRules db userId, ruleMatches r' target = true →
        r.priority ≤ r'.priority)) := by
  refine ⟨?_, ⟨evalOrder_sorted db userId, evalOrder_perm db userId⟩, ?_, ?_⟩
  · intro h
    simp [checkAccess, h]
  · intro hne hmatch
    have hall : ∀ r ∈ evalOrder db userId, ruleMatches r target = false := by
      intro r hr
      exact hmatch r ((evalOrder_perm db userId).mem_iff.mp hr)
    simp [checkAccess, List.isEmpty_iff, hne, firstMatchingRule_eq_none _ _ hall]
  · intro l₁ r l₂ hdecomp hr h₁
    have hne : getUserRules db userId ≠ [] := by
      intro h0
      have : evalOrder db userId = [] := by simp [evalOrder, h0, List.insertionSort]
      rw [hdecomp] at this
      exact absurd this (by simp)
    constructor
    · simp [checkAccess, List.isEmpty_iff, hne, hdecomp,
        firstMatchingRule_append l₁ r l₂ target hr h₁]
    · intro r' hr' hmatch'
      have hmem : r' ∈ evalOrder db userId := (evalOrder_perm db userId).mem_iff.mpr hr'
      rw [hdecomp] at hmem
      rcases List.mem_append.mp hmem with hin₁ | hin₂
      · exact absurd hmatch' (by simp [h₁ r' hin₁])
      · rcases List.mem_cons.mp hin₂ with heq | hin₂
        · simp [heq]
        · have hp : (evalOrder db userId).Pairwise (fun a b => a.priority ≤ b.priority) :=
            evalOrder_sorted db userId
          rw [hdecomp] at hp
          have := (List.pairwise_append.mp hp).2.1
          exact (List.pairwise_cons.mp this).1 r' hin₂

/-- Concrete rules for the C3 witness: the rule-precedence scenario of the
spec (priority 5 allow mail.example.com, priority 10 deny *.example.com). -/
def c3RuleAllow : AccessRule :=
  { id := "r-allow", userId := "u1", ruleType := RuleType.domain,
    accessType := AccessType.allow, pattern := "mail.example.com", priority := 5 }

def c3RuleDeny : AccessRule :=
  { id := "r-deny", userId := "u1", ruleType := RuleType.domain,
    accessType := AccessType.deny, pattern := "*.example.com", priority := 10 }

def c3Db : List AccessRule := [c3RuleDeny, c3RuleAllow]

/-- Witness for C3, instantiating the theorem on the spec scenario: the
empty-ruleset default, the deny-by-default on no match, and the first-match
decision for mail.example.com. -/
theorem C3_check_access_semantics_witness :
    checkAccess c3Db "nobody" "anything.com" = true ∧
    checkAccess c3Db "u1" "other.com" = false ∧
    checkAccess c3Db "u1" "mail.example.com" = (AccessType.allow == AccessType.allow) := by
  refine ⟨?_, ?_, ?_⟩
  · exact (C3_check_access_semantics c3Db "nobody" "anything.com").1 (by decide)
  · exact (C3_check_access_semantics c3Db "u1" "other.com").2.2.1 (by decide)
      (by decide)
  · exact ((C3_check_access_semantics c3Db "u1" "mail.example.com").2.2.2
      [] c3RuleAllow [c3RuleDeny] (by decide) (by decide) (by decide)).1

/-- C10.  Rule evaluation is total and an erroring matcher is treated as
non-matching: a url_pattern rule whose pattern fails to compile never
matches, a protocol rule never matches a malformed connection target, and a
non-matching rule in the evaluation order makes the first-match loop fall
through to the remaining rules (hence to the default when none remain). -/
theorem C10_matcher_errors_treated_as_nonmatch :
    (∀ (rule : AccessRule) (target : String) (e : RegexError),
      rule.ruleType = RuleType.urlPattern → regexCompile rule.pattern = .error e →
      ruleMatches rule target = false) ∧
    (∀ (rule : AccessRule) (target : String),
      rule.ruleType = RuleType.protocolRule → parseConnectionTarget target = none →
      ruleMatches rule target = false) ∧
    (∀ (l₁ : List AccessRule) (r : AccessRule) (l₂ : List AccessRule) (target : String),
      ruleMatches r target = false →
      firstMatchingRule (l₁ ++ r :: l₂) target = firstMatchingRule (l₁ ++ l₂) target) := by
  refine ⟨?_, ?_, ?_⟩
  · intro rule target e ht hc
    simp [ruleMatches, ht, matchUrlPattern, hc]
  · intro rule target ht hp
    simp [ruleMatches, ht, matchProtocolRule, hp]
  · intro l₁ r l₂ target hr
    exact firstMatchingRule_drop_nonmatch l₁ r l₂ target hr

/-- Concrete rule with an invalid regular expression (unterminated character
class) for the C10 witness. -/
def c10BadRegexRule : AccessRule :=
  { id := "r-bad", userId := "u2", ruleType := RuleType.urlPattern,
    accessType := AccessType.deny, pattern := "[invalid", priority := 1 }

/-- Concrete protocol rule for the C10 witness. -/
def c10ProtoRule : AccessRule :=
  { id := "r-proto", userId := "u2", ruleType := RuleType.protocolRule,
    accessType := AccessType.deny, pattern := "", protocol := some "tcp", priority := 2 }

/-- Witness for C10: the invalid-regex rule and the protocol rule on a
malformed target are non-matching, and the loop falls through past the
erroring rule. -/
theorem C10_matcher_errors_treated_as_nonmatch_witness :
    ruleMatches c10BadRegexRule "http://x.test/a" = false ∧
    ruleMatches c10ProtoRule "not-a-connection" = false ∧
    firstMatchingRule [c10BadRegexRule] "http://x.test/a" =
      firstMatchingRule [] "http://x.test/a" := by
  refine ⟨?_, ?_, ?_⟩
  · exact C10_matcher_errors_treated_as_nonmatch.1 c10BadRegexRule "http://x.test/a"
      RegexError.unterminatedClass rfl rfl
  · exact C10_matcher_errors_treated_as_nonmatch.2.1 c10ProtoRule "not-a-connection"
      rfl (by decide)
  · exact C10_matcher_errors_treated_as_nonmatch.2.2 []
      c10BadRegexRule [] "http://x.test/a"
      (C10_matcher_errors_treated_as_nonmatch.1 c10BadRegexRule "http://x.test/a"
        RegexError.unterminatedClass rfl rfl)

/-! ### Cluster registry (`src/manager/orchestrator/cluster_manager.py`)

The in-memory `self.clusters` dict is the state; the Redis mirror written by
`hset("clusters", ...)` is only read back by `_load_clusters` at boot and is
not modelled.  `datetime.now()` is Unix seconds. -/

/-- Cluster (cluster_manager.py lines 11-21); the free-form `metadata` dict
is untouched by the modelled operations and omitted. -/
structure Cluster where
  id : String
  name : String
  region : String
  datacenter : String
  headendUrl : String
  status : String
  lastHeartbeat : Int
  clientCount : Int
  deriving Repr, DecidableEq

/-- ClusterManager.get_clusters_by_region (line 100). -/
def getClustersByRegion (clusters : List Cluster) (region : String) : List Cluster :=
  clusters.filter (fun c => c.region = region)

/-- ClusterManager.get_clusters_by_datacenter (line 103). -/
def getClustersByDatacenter (clusters : List Cluster) (datacenter : String) : List Cluster :=
  clusters.filter (fun c => c.datacenter = datacenter)

/-- Client location dict (`client_location.get(...)`): absent keys are None. -/
structure Location where
  region : Option String := none
  datacenter : Option String := none
  deriving Repr, DecidableEq

/-- Candidate-selection steps of ClusterManager.get_optimal_cluster (lines
172-181): datacenter matches when a truthy datacenter is given, else region
matches when a truthy region is given, else all clusters. -/
def optimalCandidates (clusters : List Cluster) (loc : Location) : List Cluster :=
  let candidates := if optTruthy loc.datacenter then
      getClustersByDatacenter clusters (loc.datacenter.getD "")
    else []
  let candidates := if candidates.isEmpty && optTruthy loc.region then
      getClustersByRegion clusters (loc.region.getD "")
    else candidates
  if candidates.isEmpty then clusters else candidates

/-- Python `min(l, key=lambda c: c.client_count)`: the first element with
minimal key; `none` on the empty list. -/
def minByClientCount : List Cluster → Option Cluster
  | [] => none
  | c :: cs => some (cs.foldl (fun best x => if x.clientCount < best.clientCount then x else best) c)

/-- ClusterManager.get_optimal_cluster (lines 168-188): among the selected
candidates, the active cluster with the fewest clients, or None when no
candidate is active. -/
def getOptimalCluster (clusters : List Cluster) (loc : Location) : Option Cluster :=
  let activeCandidates := (optimalCandidates clusters loc).filter (fun c => c.status = "active")
  minByClientCount activeCandidates

/-- ClusterManager.update_heartbeat (lines 74-92): when the id is known, set
`last_heartbeat` to now, `status` to active, and the client count when one
is supplied; report whether the id was known. -/
def updateHeartbeat (clusters : List (String × Cluster)) (clusterId : String)
    (clientCount : Option Int) (now : Int) : Bool × List (String × Cluster) :=
  if (clusters.lookup clusterId).isSome then
    (true, clusters.map (fun kc =>
      if kc.1 = clusterId then
        (kc.1, { kc.2 with
          lastHeartbeat := now, status := "active",
          clientCount := clientCount.getD kc.2.clientCount })
      else kc))
  else (false, clusters)

/-- ClusterManager._check_cluster_health (lines 127-142): one pass of the
health monitor; a cluster whose heartbeat is older than the 5-minute (300 s)
threshold and whose status is active becomes stale, every other cluster is
untouched. -/
def checkClusterHealth (clusters : List (String × Cluster)) (now : Int) :
    List (String × Cluster) :=
  clusters.map (fun kc =>
    if kc.2.lastHeartbeat < now - 300 then
      if kc.2.status = "active" then (kc.1, { kc.2 with status := "stale" })
      else kc
    else kc)

theorem foldlMin_mem (c : Cluster) (cs : List Cluster) :
    cs.foldl (fun best x => if x.clientCount < best.clientCount then x else best) c ∈ c :: cs := by
  induction cs generalizing c with
  | nil => simp
  | cons d ds ih =>
    simp only [List.foldl_cons]
    by_cases h : d.clientCount < c.clientCount
    · rw [if_pos h]
      exact List.mem_cons_of_mem c (ih d)
    · rw [if_neg h]
      rcases List.mem_cons.mp (ih c) with h1 | h1
      · rw [h1]
        exact List.mem_cons_self _ _
      · exact List.mem_cons_of_mem c (List.mem_cons_of_mem d h1)

theorem foldlMin_le (c : Cluster) (cs : List Cluster) :
    ∀ x ∈ c :: cs,
      (cs.foldl (fun best x => if x.clientCount < best.clientCount then x else best)
        c).clientCount ≤ x.clientCount := by
  induction cs generalizing c with
  | nil =>
    intro x hx
    simp only [List.foldl_nil]
    have h1 : x = c := by simpa using hx
    simp [h1]
  | cons d ds ih =>
    intro x hx
    simp only [List.foldl_cons]
    by_cases h : d.clientCount < c.clientCount
    · rw [if_pos h]
      rcases List.mem_cons.mp hx with h1 | h1
      · rw [h1]
        exact le_trans (ih d d (by simp)) (le_of_lt h)
      · exact ih d x h1
    · rw [if_neg h]
      push_neg at h
      rcases List.mem_cons.mp hx with h1 | h1
      · rw [h1]
        exact ih c c (by simp)
      · rcases List.mem_cons.mp h1 with h2 | h2
        · rw [h2]
          exact le_trans (ih c c (by simp)) h
        · exact ih c x (by simp [h2])

theorem minByClientCount_spec (l : List Cluster) :
    match minByClientCount l with
    | none => l = []
    | some c => c ∈ l ∧ ∀ x ∈ l, c.clientCount ≤ x.clientCount := by
  match l with
  | [] => simp [minByClientCount]
  | c :: cs =>
    simp only [minByClientCount]
    exact ⟨foldlMin_mem c cs, foldlMin_le c cs⟩

/-- C6.  get_optimal_cluster prefers exact datacenter matches, then region
matches, then any cluster, and among the chosen candidates returns an active
cluster with the fewest clients — None exactly when no chosen candidate is
active. -/
theorem C6_optimal_cluster (clusters : List Cluster) (loc : Location) :
    (∀ d, loc.datacenter = some d → d ≠ "" →
      getClustersByDatacenter clusters d ≠ [] →
      optimalCandidates clusters loc = getClustersByDatacenter clusters d) ∧
    (∀ r, (optTruthy loc.datacenter = false ∨
        getClustersByDatacenter clusters (loc.datacenter.getD "") = []) →
      loc.region = some r → r ≠ "" →
      getClustersByRegion clusters r ≠ [] →
      optimalCandidates clusters loc = getClustersByRegion clusters r) ∧
    ((optTruthy loc.datacenter = false ∨
        getClustersByDatacenter clusters (loc.datacenter.getD "") = []) →
      (optTruthy loc.region = false ∨
        getClustersByRegion clusters (loc.region.getD "") = []) →
      optimalCandidates clusters loc = clusters) ∧
    (match getOptimalCluster clusters loc with
     | none => ∀ c ∈ optimalCandidates clusters loc, c.status ≠ "active"
     | some c => c ∈ optimalCandidates clusters loc ∧ c.status = "active" ∧
         ∀ x ∈ optimalCandidates clusters loc, x.status = "active" →
           c.clientCount ≤ x.clientCount) := by
  refine ⟨?_, ?_, ?_, ?_⟩
  · intro d hd hne hfil
    have hdc : optTruthy loc.datacenter = true := by simp [hd, optTruthy, hne]
    have hget : loc.datacenter.getD "" = d := by simp [hd]
    have hie : (getClustersByDatacenter clusters d).isEmpty = false := by
      simpa [List.isEmpty_iff] using hfil
    simp only [optimalCandidates, hdc, if_true, hget, hie, Bool.false_and,
      Bool.false_eq_true, if_false]
  · intro r hdc hr hne hfil
    have hcand : (if optTruthy loc.datacenter = true then
        getClustersByDatacenter clusters (loc.datacenter.getD "") else []) = [] := by
      rcases hdc with h | h
      · simp [h]
      · simp [h]
    have hrt : optTruthy loc.region = true := by simp [hr, optTruthy, hne]
    have hget : loc.region.getD "" = r := by simp [hr]
    have hie : (getClustersByRegion clusters r).isEmpty = false := by
      simpa [List.isEmpty_iff] using hfil
    simp only [optimalCandidates]
    rw [hcand]
    simp only [List.isEmpty_nil, Bool.true_and, hrt, if_true, hget, hie,
      Bool.false_eq_true, if_false]
  · intro hdc hrg
    have hcand : (if optTruthy loc.datacenter = true then
        getClustersByDatacenter clusters (loc.datacenter.getD "") else []) = [] := by
      rcases hdc with h | h
      · simp [h]
      · simp [h]
    have hcand₂ : (if optTruthy loc.region = true then
        getClustersByRegion clusters (loc.region.getD "") else []) = [] := by
      rcases hrg with h | h
      · simp [h]
      · simp [h]
    simp only [optimalCandidates]
    rw [hcand]
    simp only [List.isEmpty_nil, Bool.true_and]
    rw [hcand₂]
    simp
  · have hmin := minByClientCount_spec
      ((optimalCandidates clusters loc).filter (fun c => c.status = "active"))
    simp only [getOptimalCluster]
    split
    · rename_i heq
      rw [heq] at hmin
      intro c hc hcact
      have : c ∈ (optimalCandidates clusters loc).filter (fun c => c.status = "active") := by
        simp [List.mem_filter, hc, hcact]
      rw [hmin] at this
      simp at this
    · rename_i c heq
      rw [heq] at hmin
      obtain ⟨hmem, hle⟩ := hmin
      have hmem' := List.mem_filter.mp hmem
      refine ⟨hmem'.1, by simpa using hmem'.2, ?_⟩
      intro x hx hxact
      exact hle x (List.mem_filter.mpr ⟨hx, by simp [hxact]⟩)

/-- Clusters of the optimal-placement scenario in the spec: A and B active
in dc1 with 10 and 2 clients, C stale in dc2. -/
def locDC1 : Location := { datacenter := some "dc1" }

def clusterA : Cluster :=
  { id := "A", name := "a", region := "r1", datacenter := "dc1",
    headendUrl := "https://a", status := "active", lastHeartbeat := 0, clientCount := 10 }

def clusterB : Cluster :=
  { id := "B", name := "b", region := "r1", datacenter := "dc1",
    headendUrl := "https://b", status := "active", lastHeartbeat := 0, clientCount := 2 }

def clusterC : Cluster :=
  { id := "C", name := "c", region := "r2", datacenter := "dc2",
    headendUrl := "https://c", status := "stale", lastHeartbeat := 0, clientCount := 0 }

/-- Witness for C6, instantiating the theorem on the spec scenario: a dc1
request selects the dc1 candidates, and with only the stale C available no
active candidate exists. -/
theorem C6_optimal_cluster_witness :
    optimalCandidates [clusterA, clusterB, clusterC] locDC1 =
      getClustersByDatacenter [clusterA, clusterB, clusterC] "dc1" ∧
    (match getOptimalCluster [clusterC] locDC1 with
     | none => ∀ c ∈ optimalCandidates [clusterC] locDC1,
         c.status ≠ "active"
     | some c => c ∈ optimalCandidates [clusterC] locDC1 ∧
         c.status = "active" ∧
         ∀ x ∈ optimalCandidates [clusterC] locDC1,
           x.status = "active" → c.clientCount ≤ x.clientCount) := by
  constructor
  · exact (C6_optimal_cluster [clusterA, clusterB, clusterC]
      locDC1).1 "dc1" rfl (by decide) (by decide)
  · exact (C6_optimal_cluster [clusterC] locDC1).2.2.2

/-- Lookup after a value-only update at one key. -/
theorem lookup_map_update {β : Type} (l : List (String × β)) (k : String)
    (g : β → β) :
    (l.map (fun kc => if kc.1 = k then (kc.1, g kc.2) else kc)).lookup k =
      (l.lookup k).map g := by
  induction l with
  | nil => simp
  | cons hd tl ih =>
    obtain ⟨k₀, v₀⟩ := hd
    by_cases h : k₀ = k
    · subst h
      simp [List.lookup_cons, ih]
    · have hbeq : (k == k₀) = false := beq_eq_false_iff_ne.mpr (Ne.symm h)
      simp [List.lookup_cons, h, hbeq, ih]

/-- C9.  One pass of the health monitor turns an active cluster whose
heartbeat is older than 5 minutes stale; a cluster whose status is not
active is never transitioned; and a heartbeat sets `last_heartbeat` to the
current time and the status back to active. -/
theorem C9_health_monitor (clusters : List (String × Cluster)) (now : Int) :
    (∀ cid c, (cid, c) ∈ clusters → c.status = "active" → c.lastHeartbeat < now - 300 →
      (cid, { c with status := "stale" }) ∈ checkClusterHealth clusters now) ∧
    (∀ cid c, (cid, c) ∈ clusters → c.status ≠ "active" →
      (cid, c) ∈ checkClusterHealth clusters now) ∧
    (∀ cid c clientCount, clusters.lookup cid = some c →
      (updateHeartbeat clusters cid clientCount now).1 = true ∧
      (updateHeartbeat clusters cid clientCount now).2.lookup cid =
        some { c with
          lastHeartbeat := now, status := "active",
          clientCount := clientCount.getD c.clientCount }) := by
  refine ⟨?_, ?_, ?_⟩
  · intro cid c hmem hact hold
    have : (fun kc : String × Cluster =>
        if kc.2.lastHeartbeat < now - 300 then
          if kc.2.status = "active" then (kc.1, { kc.2 with status := "stale" }) else kc
        else kc) (cid, c) = (cid, { c with status := "stale" }) := by
      simp [hold, hact]
    rw [← this]
    exact List.mem_map_of_mem _ hmem
  · intro cid c hmem hnact
    have : (fun kc : String × Cluster =>
        if kc.2.lastHeartbeat < now - 300 then
          if kc.2.status = "active" then (kc.1, { kc.2 with status := "stale" }) else kc
        else kc) (cid, c) = (cid, c) := by
      by_cases h : c.lastHeartbeat < now - 300
      · simp [h, hnact]
      · simp [h]
    rw [← this]
    exact List.mem_map_of_mem _ hmem
  · intro cid c clientCount hlk
    have hsome : (clusters.lookup cid).isSome := by simp [hlk]
    constructor
    · simp [updateHeartbeat, hsome]
    · simp only [updateHeartbeat, hsome, if_pos]
      rw [lookup_map_update clusters cid
        (fun v => { v with
          lastHeartbeat := now, status := "active",
          clientCount := clientCount.getD v.clientCount })]
      simp [hlk]

/-- Witness cluster map for C9: one active cluster with an old heartbeat and
one inactive cluster. -/
def c9Clusters : List (String × Cluster) :=
  [("A", { clusterA with lastHeartbeat := 0 }),
   ("C", clusterC)]

/-- Witness for C9: at now = 1000 s the active cluster A (heartbeat 0) goes
stale, the stale cluster C is untouched, and a heartbeat for A at 1000
refreshes it. -/
theorem C9_health_monitor_witness :
    ("A", { clusterA with lastHeartbeat := 0, status := "stale" }) ∈
      checkClusterHealth c9Clusters 1000 ∧
    ("C", clusterC) ∈ checkClusterHealth c9Clusters 1000 ∧
    (updateHeartbeat c9Clusters "A" (some 7) 1000).2.lookup "A" =
      some { clusterA with lastHeartbeat := 1000, status := "active", clientCount := 7 } := by
  refine ⟨?_, ?_, ?_⟩
  · exact (C9_health_monitor c9Clusters 1000).1 "A" { clusterA with lastHeartbeat := 0 }
      (by decide) rfl (by decide)
  · exact (C9_health_monitor c9Clusters 1000).2.1 "C" clusterC (by decide) (by decide)
  · exact ((C9_health_monitor c9Clusters 1000).2.2 "A" { clusterA with lastHeartbeat := 0 }
      (some 7) (by decide)).2

/-! ### Client registry (`src/manager/orchestrator/client_registry.py`)

State: the in-memory `clients` and `api_keys` dicts plus the optional Redis
string keyspace holding the `api_key:{hash}` entries written by SETEX.  The
JSON mirror of the clients hash (`hset("clients", ...)`) is only read back
at boot by `_load_clients` and is not modelled. -/

/-- Client (client_registry.py lines 13-25); the free-form `metadata` dict is
untouched by the modelled operations and omitted. -/
structure Client where
  id : String
  name : String
  type : String
  clusterId : String
  apiKeyHash : String
  publicKey : String
  ipAddress : String
  status : String
  createdAt : Int
  lastSeen : Int
  deriving Repr, DecidableEq

/-- Model of `hashlib.sha256(key.encode()).hexdigest()` as an injective
tagging function: the claims depend only on determinism and
collision-freeness of the digest. -/
def sha256Hex (s : String) : String := "sha256:" ++ s

theorem sha256Hex_injective {a b : String} (h : sha256Hex a = sha256Hex b) : a = b := by
  have hd : ("sha256:" ++ a).data = ("sha256:" ++ b).data := by
    simpa [sha256Hex] using congrArg String.data h
  rw [String.data_append, String.data_append] at hd
  exact String.ext (List.append_cancel_left hd)

/-- A Redis string entry written by SETEX: value and absolute expiry time. -/
structure KVEntry where
  value : String
  expiresAt : Int
  deriving Repr, DecidableEq

/-- Redis string keyspace with TTLs. -/
abbrev RedisKV := List (String × KVEntry)

/-- Redis SETEX. -/
def kvSetex (kv : RedisKV) (key value : String) (ttl now : Int) : RedisKV :=
  dictSet kv key ⟨value, now + ttl⟩

/-- Redis GET with expiry: only a live entry yields its value. -/
def kvGet (kv : RedisKV) (key : String) (now : Int) : Option String :=
  match kv.lookup key with
  | some e => if now < e.expiresAt then some e.value else none
  | none => none

/-- State of a ClientRegistry (lines 27-33). -/
structure ClientRegistryState where
  clients : List (String × Client)
  apiKeys : List (String × String)
  redis : Option RedisKV
  deriving Repr, DecidableEq

/-- ClientRegistry.register_client (lines 53-88), with the generated API key
passed in (`secrets.token_urlsafe(32)` is nondeterministic): stores the
client with status pending, binds the hash in `api_keys`, and SETEXes the
Redis `api_key:{hash}` entry with a 1-hour TTL for initial setup. -/
def registerClient (st : ClientRegistryState) (id name ty clusterId publicKey : String)
    (apiKey : String) (now : Int) : Client × ClientRegistryState :=
  let apiKeyHash := sha256Hex apiKey
  let client : Client :=
    { id := id, name := name, type := ty, clusterId := clusterId,
      apiKeyHash := apiKeyHash, publicKey := publicKey, ipAddress := "",
      status := "pending", createdAt := now, lastSeen := now }
  (client,
   { clients := dictSet st.clients id client,
     apiKeys := dictSet st.apiKeys apiKeyHash id,
     redis := st.redis.map (fun kv => kvSetex kv ("api_key:" ++ apiKeyHash) id 3600 now) })

/-- ClientRegistry.authenticate_client (lines 90-111): look the hash up in
the in-memory map, falling back to the Redis `api_key:` key when the
in-memory result is falsy and Redis is present; a known client id refreshes
`last_seen`, promotes the status to active and returns the client. -/
def authenticateClient (st : ClientRegistryState) (apiKey : String) (now : Int) :
    Option Client × ClientRegistryState :=
  let apiKeyHash := sha256Hex apiKey
  let clientId₀ := st.apiKeys.lookup apiKeyHash
  let clientId := if !optTruthy clientId₀ then
      match st.redis with
      | some kv => kvGet kv ("api_key:" ++ apiKeyHash) now
      | none => clientId₀
    else clientId₀
  match clientId with
  | some cid =>
    if cid ≠ "" then
      match st.clients.lookup cid with
      | some client =>
        let client' := { client with lastSeen := now, status := "active" }
        (some client', { st with clients := dictSet st.clients cid client' })
      | none => (none, st)
    else (none, st)
  | none => (none, st)

/-- ClientRegistry.rotate_api_key (lines 216-247): for a known client, drop
every in-memory hash bound to the client, install the new hash on the client
record and in the map, and SETEX a Redis `api_key:` entry for the new hash
with a 1-hour TTL ("1 hour to complete rotation").  The old hash's Redis
entry is not deleted. -/
def rotateApiKey (st : ClientRegistryState) (clientId newKey : String) (now : Int) :
    Option String × ClientRegistryState :=
  match st.clients.lookup clientId with
  | none => (none, st)
  | some client =>
    let newHash := sha256Hex newKey
    let client' := { client with apiKeyHash := newHash }
    (some newKey,
     { clients := dictSet st.clients clientId client',
       apiKeys := dictSet (st.apiKeys.filter (fun kv => kv.2 ≠ clientId)) newHash clientId,
       redis := st.redis.map (fun kv =>
         kvSetex kv ("api_key:" ++ newHash) clientId 3600 now) })

/-! ### C5 -/

/-- Initial registry state for the C5 scenario, with Redis present. -/
def c5State0 : ClientRegistryState := { clients := [], apiKeys := [], redis := some [] }

/-- Client produced by registering "cl1" with API key "key-old" at t = 0. -/
def c5Client : Client :=
  (registerClient c5State0 "cl1" "edge-1" "docker" "A" "wgpub" "key-old" 0).1

/-- Registry state after the registration. -/
def c5State1 : ClientRegistryState :=
  (registerClient c5State0 "cl1" "edge-1" "docker" "A" "wgpub" "key-old" 0).2

/-- Registry state after rotating the key of "cl1" to "key-new" at t = 10. -/
def c5State2 : ClientRegistryState :=
  (rotateApiKey c5State1 "cl1" "key-new" 10).2

/-- C5 counterexample.  The claim says that after rotate_api_key the old API
key no longer authenticates.  On the code, the old key's Redis
`api_key:{hash}` entry (SETEXed for 1 hour at registration) is not deleted
by the rotation, and authenticate_client falls back to it: at t = 20 the old
key still authenticates as "cl1". -/
theorem C5_counterexample_old_key_still_authenticates :
    (rotateApiKey c5State1 "cl1" "key-new" 10).1 = some "key-new" ∧
    ((authenticateClient c5State2 "key-old" 20).1.map Client.id) = some "cl1" := by
  refine ⟨by decide, by decide⟩

theorem lookup_filter_none {β : Type} (l : List (String × β)) (k : String)
    (p : String × β → Bool)
    (h : ∀ x ∈ l, x.1 = k → p x = false) : (l.filter p).lookup k = none := by
  induction l with
  | nil => simp
  | cons hd tl ih =>
    simp only [List.filter_cons]
    by_cases hp : p hd = true
    · rw [if_pos hp]
      have hk : hd.1 ≠ k := by
        intro e
        have := h hd (by simp) e
        rw [hp] at this
        exact absurd this (by simp)
      have hbeq : (k == hd.1) = false := beq_eq_false_iff_ne.mpr (Ne.symm hk)
      obtain ⟨k₀, v₀⟩ := hd
      simp only [List.lookup_cons, hbeq]
      exact ih (fun x hx he => h x (by simp [hx]) he)
    · rw [if_neg hp]
      exact ih (fun x hx he => h x (by simp [hx]) he)

/-- C5, amended.  After rotate_api_key the new key authenticates as the
client (with the swapped hash), and the old key is rejected once no live
Redis fallback entry for its hash exists — with Redis absent, or after the
1-hour TTL of the entry written at issuance has lapsed.  Inside that TTL
window the old key still authenticates (see the counterexample), so the
swap is atomic only for the in-memory map. -/
theorem C5_amended_rotate_api_key (st : ClientRegistryState)
    (clientId newKey oldKey : String) (c : Client) (now now₂ : Int)
    (hc : st.clients.lookup clientId = some c)
    (hcid : clientId ≠ "")
    (hold : ∀ v, (sha256Hex oldKey, v) ∈ st.apiKeys → v = clientId)
    (hneq : oldKey ≠ newKey)
    (hredis : ∀ kv, (rotateApiKey st clientId newKey now).2.redis = some kv →
      kvGet kv ("api_key:" ++ sha256Hex oldKey) now₂ = none) :
    (authenticateClient (rotateApiKey st clientId newKey now).2 newKey now₂).1 =
      some { c with apiKeyHash := sha256Hex newKey, lastSeen := now₂, status := "active" } ∧
    (authenticateClient (rotateApiKey st clientId newKey now).2 oldKey now₂).1 = none := by
  have hrot : (rotateApiKey st clientId newKey now).2 =
      { clients := dictSet st.clients clientId { c with apiKeyHash := sha256Hex newKey },
        apiKeys := dictSet (st.apiKeys.filter (fun kv => kv.2 ≠ clientId))
          (sha256Hex newKey) clientId,
        redis := st.redis.map (fun kv =>
          kvSetex kv ("api_key:" ++ sha256Hex newKey) clientId 3600 now) } := by
    simp [rotateApiKey, hc]
  constructor
  · rw [hrot]
    simp only [authenticateClient, dictSet_lookup_self]
    have ht : optTruthy (some clientId) = true := by simp [optTruthy, hcid]
    simp [ht, hcid, dictSet_lookup_self]
  · have hhne : sha256Hex oldKey ≠ sha256Hex newKey := fun e => hneq (sha256Hex_injective e)
    have hmem : (dictSet (st.apiKeys.filter (fun kv => kv.2 ≠ clientId))
        (sha256Hex newKey) clientId).lookup (sha256Hex oldKey) = none := by
      rw [dictSet_lookup_other _ _ _ _ hhne]
      exact lookup_filter_none _ _ _ (by
        intro x hx he
        have hx' : (sha256Hex oldKey, x.2) ∈ st.apiKeys := by
          rw [← he]
          simpa using hx
        have := hold x.2 hx'
        simp [this])
    rw [hrot]
    simp only [authenticateClient, hmem]
    rcases hre : st.redis with _ | kv₀
    · simp
    · have hkv := hredis (kvSetex kv₀ ("api_key:" ++ sha256Hex newKey) clientId 3600 now)
        (by rw [hrot, hre]; rfl)
      simp [optTruthy, hkv]

/-- Registry state after rotation, with Redis absent, for the C5 witness. -/
def c5RotRedis : RedisKV := (rotateApiKey c5State1 "cl1" "key-new" 10).2.redis.getD []

/-- Witness for the amended C5: at t = 4000 (after the 1-hour TTL of the old
key's Redis entry, written at t = 0, has lapsed) the new key authenticates
as cl1 with the swapped hash and the old key is rejected. -/
theorem C5_amended_rotate_api_key_witness :
    (authenticateClient c5State2 "key-new" 4000).1 =
      some { c5Client with
        apiKeyHash := sha256Hex "key-new", lastSeen := 4000, status := "active" } ∧
    (authenticateClient c5State2 "key-old" 4000).1 = none := by
  have h := C5_amended_rotate_api_key c5State1 "cl1" "key-new" "key-old" c5Client 10 4000
    (by decide) (by decide)
    (by
      intro v hv
      have hv' : (sha256Hex "key-old", v) ∈
          ([(("sha256:key-old" : String), ("cl1" : String))] : List (String × String)) := hv
      have h1 := List.mem_singleton.mp hv'
      exact congrArg Prod.snd h1)
    (by decide)
    (by
      intro kv h
      have hk : kv = c5RotRedis := by
        have h2 := h.symm.trans
          (show (rotateApiKey c5State1 "cl1" "key-new" 10).2.redis = some c5RotRedis from rfl)
        exact Option.some.inj h2
      rw [hk]
      decide)
  exact h

/-! ### Threat feeds (`src/manager/security/feeds.py`) -/

/-- A stored threat indicator as far as the lookup reads it (the
threat_indicators table); timestamps, ttl and metadata are passed through
to the result unchanged and are omitted. -/
structure ThreatIndicator where
  value : String
  indicatorType : String
  threatTypes : List String
  source : String
  confidence : Int
  active : Bool
  deriving Repr, DecidableEq

/-- One entry of the threat-details list returned by
check_threat_indicator.  `matchType` is None for exact matches and carries
"parent_domain" or "network_range" otherwise, as in the source dicts. -/
structure ThreatMatch where
  value : String
  threatTypes : List String
  source : String
  confidence : Int
  matchType : Option String
  deriving Repr, DecidableEq

/-- The detail dict built from an indicator with a given confidence and
match type (feeds.py lines 570-578, 592-601, 617-626). -/
def mkThreatMatch (i : ThreatIndicator) (conf : Int) (mt : Option String) : ThreatMatch :=
  { value := i.value, threatTypes := i.threatTypes, source := i.source,
    confidence := conf, matchType := mt }

/-- Parent domains of a value (lines 582-584): `'.'.join(parts[i:])` for
i from 1 to len(parts) - 1. -/
def parentDomains (value : String) : List String :=
  let parts := pySplit value "."
  ((List.range parts.length).drop 1).map (fun i => String.intercalate "." (parts.drop i))

/-- SecurityFeedsManager.check_threat_indicator (lines 536-638), modelling a
fresh lookup: the in-process memo cache (lines 543-548 and 635-636) only
replays a previous result within its TTL and is not modelled.  The type is
auto-detected from IP parseability when not given; exact matches come
first, then parent-domain matches with confidence `max(0, conf - 10)`, then
CIDR network matches for IPs. -/
def checkThreatIndicator (db : List ThreatIndicator) (value : String)
    (indicatorType : Option String) : Bool × List ThreatMatch :=
  let itype := if !optTruthy indicatorType then
      (if (parseIPv4 value).isSome then "ip" else "domain")
    else indicatorType.getD ""
  let exactThreats := (db.filter (fun i =>
      i.value = value && i.active && i.indicatorType = itype)).map
    (fun i => mkThreatMatch i i.confidence none)
  let parentThreats := if itype = "domain" && pyContains value '.' then
      (parentDomains value).flatMap (fun p =>
        (db.filter (fun i => i.value = p && i.indicatorType = "domain" && i.active)).map
          (fun i => mkThreatMatch i (max 0 (i.confidence - 10)) (some "parent_domain")))
    else []
  let networkThreats := if itype = "ip" then
      match parseIPv4 value with
      | some ipn =>
        (db.filter (fun i =>
            i.indicatorType = "ip" && i.active && pyContains i.value '/')).filterMap
          (fun i => match parseIPv4Network i.value false with
            | some net => if ipInNetwork ipn net then
                some (mkThreatMatch i i.confidence (some "network_range")) else none
            | none => none)
      | none => []
    else []
  let threats := exactThreats ++ parentThreats ++ networkThreats
  (!threats.isEmpty, threats)

/-! ### C8 -/

/-- Domain indicator with confidence below 10, used to refute the claim as
stated. -/
def c8LowIndicator : ThreatIndicator :=
  { value := "evil.test", indicatorType := "domain", threatTypes := ["malware"],
    source := "feedX", confidence := 5, active := true }

/-- C8 counterexample.  The claim says a parent match is reported "with
confidence reduced by 10 relative to the stored indicator".  The code floors
the reduction at 0 (`max(0, confidence - 10)`, line 596): for a stored
confidence of 5 the reported confidence is 0, not 5 − 10. -/
theorem C8_counterexample_confidence_floor :
    ((checkThreatIndicator [c8LowIndicator] "www.evil.test" none).2.map
      ThreatMatch.confidence) = [0] ∧ (0 : Int) ≠ 5 - 10 := by
  refine ⟨by decide, by decide⟩

/-- C8, amended.  For every domain value containing a dot (and not parseable
as an IP, so that auto-detection yields type domain), every active domain
indicator whose value is a parent domain of the checked value contributes a
match with match_type "parent_domain" and confidence reduced by 10 but
floored at 0, and the lookup reports is_threat. -/
theorem C8_amended_parent_domain (db : List ThreatIndicator) (value : String)
    (ind : ThreatIndicator)
    (hip : parseIPv4 value = none)
    (hdot : pyContains value '.' = true)
    (hmem : ind ∈ db)
    (hact : ind.active = true)
    (htype : ind.indicatorType = "domain")
    (hpar : ind.value ∈ parentDomains value) :
    (checkThreatIndicator db value none).1 = true ∧
    mkThreatMatch ind (max 0 (ind.confidence - 10)) (some "parent_domain") ∈
      (checkThreatIndicator db value none).2 := by
  have heq : (checkThreatIndicator db value none).2 =
      (db.filter (fun i => i.value = value && i.active && i.indicatorType = "domain")).map
        (fun i => mkThreatMatch i i.confidence none) ++
      (parentDomains value).flatMap (fun p =>
        (db.filter (fun i => i.value = p && i.indicatorType = "domain" && i.active)).map
          (fun i => mkThreatMatch i (max 0 (i.confidence - 10)) (some "parent_domain"))) := by
    simp [checkThreatIndicator, optTruthy, hip, hdot]
  have hmem2 : mkThreatMatch ind (max 0 (ind.confidence - 10)) (some "parent_domain") ∈
      (parentDomains value).flatMap (fun p =>
        (db.filter (fun i => i.value = p && i.indicatorType = "domain" && i.active)).map
          (fun i => mkThreatMatch i (max 0 (i.confidence - 10)) (some "parent_domain"))) := by
    apply List.mem_flatMap.mpr
    refine ⟨ind.value, hpar, ?_⟩
    exact List.mem_map_of_mem _ (List.mem_filter.mpr ⟨hmem, by simp [hact, htype]⟩)
  have hmem3 : mkThreatMatch ind (max 0 (ind.confidence - 10)) (some "parent_domain") ∈
      (checkThreatIndicator db value none).2 := by
    rw [heq]
    exact List.mem_append.mpr (Or.inr hmem2)
  refine ⟨?_, hmem3⟩
  have h1 : (checkThreatIndicator db value none).1 =
      !((checkThreatIndicator db value none).2).isEmpty := rfl
  rw [h1]
  have hne : (checkThreatIndicator db value none).2 ≠ [] := List.ne_nil_of_mem hmem3
  simp [List.isEmpty_iff, hne]

/-- The parent-domain scenario indicator of the spec: evil.test with
confidence 90. -/
def c8Indicator : ThreatIndicator :=
  { value := "evil.test", indicatorType := "domain", threatTypes := ["malware"],
    source := "feedX", confidence := 90, active := true }

/-- Witness for the amended C8: ingesting evil.test at confidence 90 makes
check("www.evil.test") a threat with a parent_domain match of confidence
max 0 (90 − 10) = 80. -/
theorem C8_amended_parent_domain_witness :
    (checkThreatIndicator [c8Indicator] "www.evil.test" none).1 = true ∧
    mkThreatMatch c8Indicator (max 0 (c8Indicator.confidence - 10)) (some "parent_domain") ∈
      (checkThreatIndicator [c8Indicator] "www.evil.test" none).2 ∧
    max 0 (c8Indicator.confidence - 10) = (80 : Int) := by
  have h := C8_amended_parent_domain [c8Indicator] "www.evil.test" c8Indicator
    (by decide) (by decide) (by decide) (by decide) (by decide) (by decide)
  exact ⟨h.1, h.2, by decide⟩

/-! ### Rate limiter (`src/manager/security/__init__.py`)

State: the Redis sorted sets `rl:{rule}:{ip}` and the in-memory block list.
The sorted-set member is `str(now)` with score `now`, so two requests in
the same second collapse to one member; the model therefore keeps the set
of integer timestamps.  `blocked_ips` mirrors the keys of `blocked_until`
and is omitted; the Redis `blocked_ip:` and the in-memory fallback path are
persistence/degraded-mode mirrors never read by the modelled operations. -/

/-- RateLimitRule (security/__init__.py lines 20-29). -/
structure RateLimitRule where
  name : String
  maxRequests : Nat
  windowSeconds : Int
  blockDuration : Int := 300
  endpoints : Option (List String) := none
  exemptIps : Option (List String) := none
  priority : Int := 10
  deriving Repr, DecidableEq

/-- State of a RateLimiter (lines 47-56). -/
structure RateLimiterState where
  rlWindows : List (String × List Int)
  blockedUntil : List (String × Int)
  deriving Repr, DecidableEq

/-- ZADD with member str(now): inserting an existing member only refreshes
its (identical) score, leaving the set unchanged. -/
def zsetAdd (l : List Int) (t : Int) : List Int := if l.contains t then l else l ++ [t]

/-- ZREMRANGEBYSCORE key 0 windowStart. -/
def zsetTrim (l : List Int) (windowStart : Int) : List Int :=
  l.filter (fun s => !(0 ≤ s && s ≤ windowStart))

/-- ZRANGE key 0 0 WITHSCORES: the minimal score, when any. -/
def zsetMin : List Int → Option Int
  | [] => none
  | t :: ts => some (ts.foldl min t)

/-- RateLimiter._check_rule (lines 225-260): trim the sliding window; when
it already holds max_requests entries reject with retry-after
`max(window − (now − oldest), 1)` (the request is not recorded), otherwise
record the request and allow.  The EXPIRE of the whole key only reclaims
idle keys whose entries the next trim would drop anyway and is not
modelled. -/
def checkRule (st : RateLimiterState) (rule : RateLimitRule) (ip : String) (now : Int) :
    (Bool × Int) × RateLimiterState :=
  let key := "rl:" ++ rule.name ++ ":" ++ ip
  let entries := zsetTrim ((st.rlWindows.lookup key).getD []) (now - rule.windowSeconds)
  if entries.length ≥ rule.maxRequests then
    (match zsetMin entries with
      | some oldest => (false, max (rule.windowSeconds - (now - oldest)) 1)
      | none => (false, rule.windowSeconds),
     { st with rlWindows := dictSet st.rlWindows key entries })
  else
    ((true, 0), { st with rlWindows := dictSet st.rlWindows key (zsetAdd entries now) })

/-- RateLimiter._is_ip_blocked (lines 175-184): a live entry blocks; an
expired entry is deleted on the way. -/
def isIpBlocked (st : RateLimiterState) (ip : String) (now : Int) :
    Bool × RateLimiterState :=
  match st.blockedUntil.lookup ip with
  | some untilT =>
    if now < untilT then (true, st)
    else (false, { st with blockedUntil := st.blockedUntil.filter (fun kv => kv.1 ≠ ip) })
  | none => (false, st)

/-- RateLimiter._block_ip (lines 186-197); the Redis `blocked_ip:` SETEX is
persistence-only and not modelled. -/
def blockIp (st : RateLimiterState) (ip : String) (duration : Int) (now : Int) :
    RateLimiterState :=
  { st with blockedUntil := dictSet st.blockedUntil ip (now + duration) }

/-- Exempt-IP loop of _rule_applies (lines 202-213): CIDR entries use strict
`ip_network`; a malformed CIDR raises, and the enclosing try/except aborts
the whole exempt check (no exemption). -/
def exemptLoop (ip : String) (ipn : Nat) : List String → Bool
  | [] => false
  | ex :: rest =>
    if pyContains ex '/' then
      match parseIPv4Network ex true with
      | none => false
      | some net => if ipInNetwork ipn net then true else exemptLoop ip ipn rest
    else if ip = ex then true else exemptLoop ip ipn rest

/-- RateLimiter._rule_applies (lines 199-223): an exempt IP never triggers
the rule; a rule without an endpoints list applies everywhere, one with a
list applies to endpoints matching some item by prefix. -/
def ruleApplies (rule : RateLimitRule) (endpoint ip : String) : Bool :=
  let exempted := match rule.exemptIps with
    | some exempts =>
      match parseIPv4 ip with
      | some ipn => exemptLoop ip ipn exempts
      | none => false
    | none => false
  if exempted then false
  else match rule.endpoints with
    | none => true
    | some pats => pats.any (fun p => pyStartsWith endpoint p)

/-- Rule loop of RateLimiter.is_allowed (lines 153-172): every applicable
rule is consulted (each records the request in its own window); the first
one to reject blocks the IP for its block_duration and decides. -/
def isAllowedLoop (st : RateLimiterState) (rules : List RateLimitRule)
    (ip endpoint : String) (now : Int) :
    (Bool × Option RateLimitRule × Int) × RateLimiterState :=
  match rules with
  | [] => ((true, none, 0), st)
  | rule :: rest =>
    if ruleApplies rule endpoint ip then
      let r := checkRule st rule ip now
      if !r.1.1 then
        ((false, some rule, r.1.2), blockIp r.2 ip rule.blockDuration now)
      else isAllowedLoop r.2 rest ip endpoint now
    else isAllowedLoop st rest ip endpoint now

/-- RateLimiter.is_allowed (lines 142-173): a currently blocked IP is
rejected immediately — returning the raw blocked-until value, as the source
does — without rule evaluation; otherwise the rules run in order. -/
def isAllowed (st : RateLimiterState) (rules : List RateLimitRule)
    (ip endpoint : String) (now : Int) :
    (Bool × Option RateLimitRule × Int) × RateLimiterState :=
  let b := isIpBlocked st ip now
  if b.1 then
    ((false, none, (b.2.blockedUntil.lookup ip).getD 0), b.2)
  else isAllowedLoop b.2 rules ip endpoint now

/-- Driver feeding a sequence of request times through is_allowed with a
single rule. -/
def runSeq (st : RateLimiterState) (rule : RateLimitRule) (ip endpoint : String) :
    List Int → List (Bool × Option RateLimitRule × Int) × RateLimiterState
  | [] => ([], st)
  | t :: ts =>
    let r := isAllowed st [rule] ip endpoint t
    let rest := runSeq r.2 rule ip endpoint ts
    (r.1 :: rest.1, rest.2)

/-! ### C7 -/

/-- Rule used by the C7 counterexample. -/
def c7Rule : RateLimitRule :=
  { name := "api_strict", maxRequests := 2, windowSeconds := 60, blockDuration := 300,
    priority := 1 }

/-- C7 counterexample.  The claim says that after exactly max_requests
allowed requests inside the window, the next request is rejected.  With
max_requests = 2, two allowed requests in the same second (t = 5) collapse
to a single sorted-set member `str(5)`, so the third request at t = 6 is
allowed as well. -/
theorem C7_counterexample_same_second_requests :
    (runSeq ⟨[], []⟩ c7Rule "1.2.3.4" "/api/x" [5, 5, 6]).1 =
      [(true, none, 0), (true, none, 0), (true, none, 0)] := by decide

theorem dictSet_dictSet {α : Type} (l : List (String × α)) (k : String) (v w : α) :
    dictSet (dictSet l k v) k w = dictSet l k w := by
  induction l with
  | nil => simp [dictSet]
  | cons hd tl ih =>
    by_cases h : hd.1 = k
    · simp [dictSet, h]
    · obtain ⟨k₀, v₀⟩ := hd
      simp only [dictSet, if_neg h]
      rw [ih]

theorem zsetTrim_eq_self (l : List Int) (ws : Int) (h : ∀ t ∈ l, ws < t) :
    zsetTrim l ws = l := by
  apply List.filter_eq_self.mpr
  intro a ha
  have ha2 := h a ha
  have hd2 : decide (a ≤ ws) = false := decide_eq_false (by omega)
  simp [hd2]

theorem zsetAdd_not_mem (l : List Int) (t : Int) (h : t ∉ l) : zsetAdd l t = l ++ [t] := by
  simp [zsetAdd, h]

theorem zsetMin_sorted (t : Int) (ts : List Int) (h : ∀ u ∈ ts, t ≤ u) :
    zsetMin (t :: ts) = some t := by
  simp only [zsetMin, Option.some.injEq]
  induction ts generalizing t with
  | nil => rfl
  | cons u us ih =>
    simp only [List.foldl_cons]
    rw [min_eq_left (h u (by simp))]
    exact ih t (fun v hv => h v (by simp [hv]))

theorem isAllowed_step (m : List (String × List Int)) (rule : RateLimitRule)
    (ip endpoint : String) (now : Int) (pre : List Int)
    (happ : ruleApplies rule endpoint ip = true)
    (hkey : ((m.lookup ("rl:" ++ rule.name ++ ":" ++ ip)).getD []) = pre)
    (hin : ∀ t ∈ pre, now - rule.windowSeconds < t)
    (hlt : ∀ t ∈ pre, t < now)
    (hlen : pre.length < rule.maxRequests) :
    isAllowed ⟨m, []⟩ [rule] ip endpoint now =
      ((true, none, 0),
       ⟨dictSet m ("rl:" ++ rule.name ++ ":" ++ ip) (pre ++ [now]), []⟩) := by
  have hcheck : checkRule ⟨m, []⟩ rule ip now =
      ((true, 0), ⟨dictSet m ("rl:" ++ rule.name ++ ":" ++ ip) (pre ++ [now]), []⟩) := by
    have htrim : zsetTrim ((m.lookup ("rl:" ++ rule.name ++ ":" ++ ip)).getD [])
        (now - rule.windowSeconds) = pre := by
      rw [hkey]
      exact zsetTrim_eq_self pre _ hin
    have hadd : zsetAdd pre now = pre ++ [now] :=
      zsetAdd_not_mem pre now (fun hmem => lt_irrefl now (hlt now hmem))
    simp only [checkRule, htrim]
    rw [if_neg (by omega), hadd]
  simp only [isAllowed, isIpBlocked, List.lookup_nil]
  simp only [isAllowedLoop, happ, if_true, hcheck]
  simp

theorem isAllowed_reject (m : List (String × List Int)) (rule : RateLimitRule)
    (ip endpoint : String) (now t₁ : Int) (rest : List Int)
    (happ : ruleApplies rule endpoint ip = true)
    (hkey : ((m.lookup ("rl:" ++ rule.name ++ ":" ++ ip)).getD []) = t₁ :: rest)
    (hin : ∀ t ∈ t₁ :: rest, now - rule.windowSeconds < t)
    (hmin : ∀ t ∈ rest, t₁ ≤ t)
    (hlen : (t₁ :: rest).length ≥ rule.maxRequests) :
    isAllowed ⟨m, []⟩ [rule] ip endpoint now =
      ((false, some rule, rule.windowSeconds - (now - t₁)),
       ⟨dictSet m ("rl:" ++ rule.name ++ ":" ++ ip) (t₁ :: rest),
        [(ip, now + rule.blockDuration)]⟩) := by
  have hretry : 1 ≤ rule.windowSeconds - (now - t₁) := by
    have := hin t₁ (by simp)
    omega
  have hcheck : checkRule ⟨m, []⟩ rule ip now =
      ((false, rule.windowSeconds - (now - t₁)),
       ⟨dictSet m ("rl:" ++ rule.name ++ ":" ++ ip) (t₁ :: rest), []⟩) := by
    have htrim : zsetTrim ((m.lookup ("rl:" ++ rule.name ++ ":" ++ ip)).getD [])
        (now - rule.windowSeconds) = t₁ :: rest := by
      rw [hkey]
      exact zsetTrim_eq_self _ _ hin
    simp only [checkRule, htrim]
    rw [if_pos hlen, zsetMin_sorted t₁ rest hmin]
    have hmax : max (rule.windowSeconds - (now - t₁)) 1 = rule.windowSeconds - (now - t₁) :=
      max_eq_left hretry
    simp only [hmax]
  simp only [isAllowed, isIpBlocked, List.lookup_nil]
  simp only [isAllowedLoop, happ, if_true, hcheck]
  simp [blockIp, dictSet]

theorem isAllowed_blocked (st : RateLimiterState) (rules : List RateLimitRule)
    (ip endpoint : String) (now untilT : Int)
    (hb : st.blockedUntil.lookup ip = some untilT) (hlt : now < untilT) :
    isAllowed st rules ip endpoint now = ((false, none, untilT), st) := by
  simp only [isAllowed, isIpBlocked, hb]
  rw [if_pos hlt]
  simp [hb]

theorem runSeq_all_allowed (rule : RateLimitRule) (ip endpoint : String)
    (ts : List Int) (pre : List Int) (m : List (String × List Int))
    (happ : ruleApplies rule endpoint ip = true)
    (hkey : ((m.lookup ("rl:" ++ rule.name ++ ":" ++ ip)).getD []) = pre)
    (hchain : (pre ++ ts).Pairwise (· < ·))
    (hspan : ∀ t ∈ pre ++ ts, ∀ u ∈ pre ++ ts, u - rule.windowSeconds < t)
    (hlen : pre.length + ts.length ≤ rule.maxRequests) :
    runSeq ⟨m, []⟩ rule ip endpoint ts =
      (ts.map (fun _ => (true, none, 0)),
       ⟨if ts.isEmpty then m else dictSet m ("rl:" ++ rule.name ++ ":" ++ ip) (pre ++ ts),
        []⟩) := by
  induction ts generalizing pre m with
  | nil => simp [runSeq]
  | cons t ts' ih =>
    have hmemt : t ∈ pre ++ t :: ts' := by simp
    have hstep := isAllowed_step m rule ip endpoint t pre happ hkey
      (fun u hu => hspan u (List.mem_append_left _ hu) t hmemt)
      (fun u hu => by
        have := (List.pairwise_append.mp hchain).2.2 u hu t (by simp)
        exact this)
      (by simp at hlen; omega)
    have hkey2 : (((dictSet m ("rl:" ++ rule.name ++ ":" ++ ip)
        (pre ++ [t])).lookup ("rl:" ++ rule.name ++ ":" ++ ip)).getD []) = pre ++ [t] := by
      rw [dictSet_lookup_self]
      rfl
    have hlist : (pre ++ [t]) ++ ts' = pre ++ t :: ts' := by
      rw [List.append_assoc]
      rfl
    have hrec := ih (pre ++ [t]) (dictSet m ("rl:" ++ rule.name ++ ":" ++ ip) (pre ++ [t]))
      hkey2 (by rw [hlist]; exact hchain) (by rw [hlist]; exact hspan)
      (by simp at hlen ⊢; omega)
    simp only [runSeq, hstep, hrec]
    rcases ts' with _ | ⟨t₂, ts''⟩
    · simp
    · simp only [List.isEmpty_cons, List.map_cons]
      rw [dictSet_dictSet, hlist]
      simp

/-- C7, amended.  Starting from a clean state, for every rule R that applies
to the endpoint and IP: requests at max_requests pairwise-distinct (strictly
increasing) times, all inside one window span, are all allowed; the next
request is rejected with Retry-After = window − (now − oldest) (which is at
most window), is not recorded, and puts the IP on the block list until
now + block_duration; while on the block list a request is rejected without
rule evaluation (no rule is reported and the state is untouched). -/
theorem C7_amended_sliding_window (rule : RateLimitRule) (ip endpoint : String)
    (ts : List Int) (tN tB : Int)
    (happ : ruleApplies rule endpoint ip = true)
    (hmax : 1 ≤ rule.maxRequests)
    (hlen : ts.length = rule.maxRequests)
    (hchain : (ts ++ [tN]).Pairwise (fun a b => a < b))
    (hspan : ∀ t ∈ ts ++ [tN], ∀ u ∈ ts ++ [tN], u - rule.windowSeconds < t)
    (hblock : tB < tN + rule.blockDuration) :
    (runSeq ⟨[], []⟩ rule ip endpoint ts).1 = ts.map (fun _ => (true, none, 0)) ∧
    isAllowed (runSeq ⟨[], []⟩ rule ip endpoint ts).2 [rule] ip endpoint tN =
      ((false, some rule, rule.windowSeconds - (tN - ts.headD 0)),
       ⟨dictSet [] ("rl:" ++ rule.name ++ ":" ++ ip) ts, [(ip, tN + rule.blockDuration)]⟩) ∧
    rule.windowSeconds - (tN - ts.headD 0) ≤ rule.windowSeconds ∧
    isAllowed (isAllowed (runSeq ⟨[], []⟩ rule ip endpoint ts).2 [rule] ip endpoint tN).2
        [rule] ip endpoint tB =
      ((false, none, tN + rule.blockDuration),
       (isAllowed (runSeq ⟨[], []⟩ rule ip endpoint ts).2 [rule] ip endpoint tN).2) := by
  obtain ⟨t₁, ts', rfl⟩ : ∃ a l, ts = a :: l := by
    cases ts with
    | nil =>
      simp at hlen
      omega
    | cons a l => exact ⟨a, l, rfl⟩
  have hsub : (t₁ :: ts').Pairwise (fun a b => a < b) :=
    hchain.sublist (List.sublist_append_left _ [tN])
  have hspan' : ∀ t ∈ t₁ :: ts', ∀ u ∈ t₁ :: ts', u - rule.windowSeconds < t :=
    fun t ht u hu => hspan t (List.mem_append_left _ ht) u (List.mem_append_left _ hu)
  have hrun := runSeq_all_allowed rule ip endpoint (t₁ :: ts') [] [] happ rfl
    (by simpa using hsub) (by simpa using hspan') (by simp [hlen])
  simp only [List.isEmpty_cons, Bool.false_eq_true, if_false, List.nil_append] at hrun
  have hstate : (runSeq ⟨[], []⟩ rule ip endpoint (t₁ :: ts')).2 =
      ⟨dictSet [] ("rl:" ++ rule.name ++ ":" ++ ip) (t₁ :: ts'), []⟩ := by rw [hrun]
  have hkeyr : (((dictSet ([] : List (String × List Int))
      ("rl:" ++ rule.name ++ ":" ++ ip) (t₁ :: ts')).lookup
        ("rl:" ++ rule.name ++ ":" ++ ip)).getD []) = t₁ :: ts' := by
    rw [dictSet_lookup_self]
    rfl
  have hinr : ∀ t ∈ t₁ :: ts', tN - rule.windowSeconds < t :=
    fun t ht => hspan t (List.mem_append_left _ ht) tN (by simp)
  have hminr : ∀ t ∈ ts', t₁ ≤ t :=
    fun t ht => le_of_lt ((List.pairwise_cons.mp hsub).1 t ht)
  have hrej := isAllowed_reject (dictSet [] ("rl:" ++ rule.name ++ ":" ++ ip) (t₁ :: ts'))
    rule ip endpoint tN t₁ ts' happ hkeyr hinr hminr hlen.ge
  have hrej2 : isAllowed (runSeq ⟨[], []⟩ rule ip endpoint (t₁ :: ts')).2
      [rule] ip endpoint tN =
      ((false, some rule, rule.windowSeconds - (tN - (t₁ :: ts').headD 0)),
       ⟨dictSet [] ("rl:" ++ rule.name ++ ":" ++ ip) (t₁ :: ts'),
        [(ip, tN + rule.blockDuration)]⟩) := by
    rw [hstate]
    simp only [List.headD_cons]
    rw [hrej, dictSet_dictSet]
  refine ⟨by rw [hrun], hrej2, ?_, ?_⟩
  · have ht1 : t₁ < tN := (List.pairwise_append.mp hchain).2.2 t₁ (by simp) tN (by simp)
    simp only [List.headD_cons]
    omega
  · rw [hrej2]
    refine isAllowed_blocked _ [rule] ip endpoint tB (tN + rule.blockDuration) ?_ hblock
    simp [List.lookup]

/-- Rule used by the C7 witness (applies to every endpoint, no exemptions). -/
def c7WitRule : RateLimitRule :=
  { name := "api_moderate", maxRequests := 2, windowSeconds := 60, blockDuration := 300,
    priority := 1 }

/-- Witness for the amended C7: with max_requests = 2 and window 60 s,
requests at t = 5 and t = 10 are allowed; the request at t = 20 is rejected
with Retry-After 60 − (20 − 5) = 45 ≤ 60 and blocks the IP until 320; the
request at t = 100 is rejected with no rule reported and the state
untouched. -/
theorem C7_amended_sliding_window_witness :
    (runSeq ⟨[], []⟩ c7WitRule "9.8.7.6" "/api/y" [5, 10]).1 =
      [5, 10].map (fun _ => (true, none, 0)) ∧
    isAllowed (runSeq ⟨[], []⟩ c7WitRule "9.8.7.6" "/api/y" [5, 10]).2 [c7WitRule]
        "9.8.7.6" "/api/y" 20 =
      ((false, some c7WitRule, c7WitRule.windowSeconds - (20 - [5, 10].headD 0)),
       ⟨dictSet [] ("rl:" ++ c7WitRule.name ++ ":" ++ "9.8.7.6") [5, 10],
        [("9.8.7.6", 20 + c7WitRule.blockDuration)]⟩) ∧
    c7WitRule.windowSeconds - (20 - [5, 10].headD 0) ≤ c7WitRule.windowSeconds ∧
    isAllowed (isAllowed (runSeq ⟨[], []⟩ c7WitRule "9.8.7.6" "/api/y" [5, 10]).2
        [c7WitRule] "9.8.7.6" "/api/y" 20).2 [c7WitRule] "9.8.7.6" "/api/y" 100 =
      ((false, none, 20 + c7WitRule.blockDuration),
       (isAllowed (runSeq ⟨[], []⟩ c7WitRule "9.8.7.6" "/api/y" [5, 10]).2
        [c7WitRule] "9.8.7.6" "/api/y" 20).2) := by
  exact C7_amended_sliding_window c7WitRule "9.8.7.6" "/api/y" [5, 10] 20 100
    (by decide) (by decide) (by decide) (by decide) (by decide) (by decide)

end Tobogganing
